import Mathlib

/-!
Shallow embedding of the view-resolution core of `src/sql/sql_view.cc`
(MySQL view creation, resolution, drop, key checking), together with
theorems settling the spec claims about it.

Machine pointers and collaborator calls are modelled as follows: a
`TABLE_LIST` global chain becomes a Lean list (or, for the splice claim, an
explicit `next_global` pointer function over node ids); external
collaborator outcomes (privilege checks, `open_and_lock_tables`, the SQL
parser, file I/O) become boolean/`Except` inputs; field identity becomes
`Nat`.
-/

namespace SqlView

/-- Enumeration VIEW_ALGORITHM_UNDEFINED / MERGE / TMPTABLE used by the
LEX `create_view_algorithm` and the TABLE_LIST `algorithm` fields. -/
inductive Algorithm where
  | undefined
  | merge
  | tmptable
deriving DecidableEq, Repr

/-- Enumeration VIEW_CHECK_NONE / LOCAL / CASCADED (field `with_check`). -/
inductive ViewCheck where
  | check_none
  | check_local
  | check_cascaded
deriving DecidableEq, Repr

/-- Enumeration enum_view_create_mode. -/
inductive CreateMode where
  | createNew
  | alterView
  | createOrReplace
deriving DecidableEq, Repr

/-- Enumeration frm_type_enum: the result of `mysql_frm_type`. -/
inductive FrmTypeResult where
  | frmError
  | frmTable
  | frmView
deriving DecidableEq, Repr

/-- Model of `mysql_frm_type` (sql_view.cc): cheap classification of a
`.frm` file without parsing it.  The argument is the outcome of
`my_open` + `my_read`: `Except.error ()` when the open or the read fails,
`Except.ok content` with the file's bytes otherwise.  The read fills at
most the 10-byte header buffer (`char header[10]`), so `length` in the
source is `min 10 content.length`; `strncmp(header, "TYPE=VIEW\n", 10)`
compares exactly the 10 header bytes. -/
def mysql_frm_type (file : Except Unit (List Char)) : FrmTypeResult :=
  match file with
  | .error _ => .frmError
  | .ok content =>
    let header := content.take 10
    if header.length < 10 then .frmView
    else if header = "TYPE=VIEW\n".toList then .frmView
    else .frmTable

/-! ## check_key_in_view (the bounded-mutation key check) -/

/-- One KEY of the underlying table, reduced to what `check_key_in_view`
reads: the HA_NOSAME and HA_NULL_PART_KEY bits of `flags`, and the list of
underlying fields the key parts point to (`key_part->field`), with field
identity modelled as `Nat`. -/
structure KeyInfo where
  hasNosame : Bool
  hasNullPart : Bool
  keyParts : List Nat
deriving DecidableEq, Repr

/-- Inputs of `check_key_in_view`: the view node, its opened table and the
THD state the function reads.  `fieldTranslation` holds, for each exposed
view column in order, the outcome of `trans[k].item->filed_for_view_update()`:
`some f` when the output item is a direct reference to underlying field
`f`, `none` otherwise. -/
structure CheckKeyInput where
  isViewNode : Bool
  isInsert : Bool
  selectLimit : Nat
  keys : List KeyInfo
  tableFields : List Nat
  fieldTranslation : List (Option Nat)
  updatableViewsWithLimit : Bool
deriving DecidableEq, Repr

/-- Result of `check_key_in_view`: `reject = true` models the TRUE return
(prohibit the mutation); `warned` records whether ER_WARN_VIEW_WITHOUT_KEY
was pushed. -/
structure CheckKeyResult where
  reject : Bool
  warned : Bool
deriving DecidableEq, Repr

/-- Model of `check_key_in_view` (sql_view.cc).  Mirrors the control flow:
the early FALSE return for non-view nodes, INSERT commands and queries
without LIMIT; the scan over unique not-null keys looking for one whose
every part is produced directly by an exposed column; the fallback scan
checking that every table field is exposed; and, when both fail, the
`updatable_views_with_limit` switch between warn-and-allow and reject. -/
def check_key_in_view (inp : CheckKeyInput) : CheckKeyResult :=
  if !inp.isViewNode || inp.isInsert || inp.selectLimit = 0 then
    ⟨false, false⟩
  else if inp.keys.any (fun k =>
      k.hasNosame && !k.hasNullPart &&
      k.keyParts.all (fun kp =>
        inp.fieldTranslation.any (fun t => t = some kp))) then
    ⟨false, false⟩
  else if inp.tableFields.all (fun f =>
      inp.fieldTranslation.any (fun t => t = some f)) then
    ⟨false, false⟩
  else if inp.updatableViewsWithLimit then
    ⟨false, true⟩
  else
    ⟨true, false⟩

/-- Spec-side predicate: the exposed columns cover a full unique,
all-not-null key of the underlying table. -/
def CoversUniqueKey (inp : CheckKeyInput) : Prop :=
  ∃ k ∈ inp.keys, k.hasNosame = true ∧ k.hasNullPart = false ∧
    ∀ kp ∈ k.keyParts, some kp ∈ inp.fieldTranslation

/-- Spec-side predicate: every column of the underlying table is exposed
as a direct column reference of the view. -/
def CoversAllFields (inp : CheckKeyInput) : Prop :=
  ∀ f ∈ inp.tableFields, some f ∈ inp.fieldTranslation

instance (inp : CheckKeyInput) : Decidable (CoversUniqueKey inp) := by
  unfold CoversUniqueKey; infer_instance

instance (inp : CheckKeyInput) : Decidable (CoversAllFields inp) := by
  unfold CoversAllFields; infer_instance

/-! ## mysql_register_view (the CREATE/ALTER persist step) -/

/-- One TABLE_LIST entry of the main select's local table list, as read by
the updatability loop of `mysql_register_view`.  `embeddingOuterJoins`
lists the `outer_join` flags seen along the `embedding` chain starting at
the table itself (the `for (up= tbl; up; up= up->embedding)` walk). -/
structure LocalTbl where
  isView : Bool
  updatableView : Bool
  schemaTable : Bool
  embeddingOuterJoins : List Bool
deriving DecidableEq, Repr

/-- An old `.frm` file found on disk at the target path, together with the
outcomes of the external codec calls `mysql_register_view` makes on it. -/
structure OldFrm where
  prepareFails : Bool
  parserOk : Bool
  typeIsView : Bool
  parseRevisionFails : Bool
  revision : Nat
deriving DecidableEq, Repr

/-- Inputs of `mysql_register_view`: the creation mode, the state of the
target path on disk, and the LEX fields read by the function.
`canBeMerged` is the collaborator call `lex->can_be_merged()` (a pure
property of the defining query); `mainTableUsedInSubquery` is the outcome
of `find_table_in_global_list` over the rest of the global list;
`writeFails` is the outcome of `sql_create_definition_file`. -/
structure RegisterInput where
  mode : CreateMode
  oldFrm : Option OldFrm
  canBeMerged : Bool
  createViewAlgorithm : Algorithm
  createViewCheck : ViewCheck
  mainTables : List LocalTbl
  hasNextSelect : Bool
  mainTableUsedInSubquery : Bool
  netReportError : Bool
  writeFails : Bool
deriving DecidableEq, Repr

/-- Errors of `mysql_register_view` (each -1/1 return mapped to the error
raised at that point). -/
inductive RegErr where
  | tableExists
  | prepareError
  | wrongObject
  | noSuchTable
  | revisionParseError
  | nonupdCheck
  | writeError
deriving DecidableEq, Repr

/-- The persisted view record, restricted to the fields this file
computes and the claims mention. -/
structure ViewRecord where
  algorithm : Algorithm
  withCheck : ViewCheck
  updatableView : Bool
  revision : Nat
deriving DecidableEq, Repr

/-- Result of `mysql_register_view`: the return value (with the quirk path
that returns 0 without writing modelled as `.ok none`), whether
ER_WARN_VIEW_MERGE was pushed, the value of the `view->revision` field
after the call, and the list of records actually written to disk. -/
structure RegisterResult where
  outcome : Except RegErr (Option ViewRecord)
  warned : Bool
  revisionField : Nat
  writes : List ViewRecord
deriving Repr

/-- The `for (up= tbl; up; up= up->embedding) if (up->outer_join)` walk. -/
def tblUnderOuterJoin (t : LocalTbl) : Bool :=
  t.embeddingOuterJoins.any (fun b => b)

/-- One table of the main select disqualifies updatability: it is a
non-updatable view, a schema table, or sits under an outer join. -/
def tblBlocksUpdatable (t : LocalTbl) : Bool :=
  (t.isView && !t.updatableView) || t.schemaTable || tblUnderOuterJoin t

/-- Whether the MERGE-to-UNDEFINED downgrade warning is pushed:
`create_view_algorithm == VIEW_ALGORITHM_MERGE && !lex->can_be_merged()`. -/
def registerWarned (inp : RegisterInput) : Bool :=
  decide (inp.createViewAlgorithm = Algorithm.merge) && !inp.canBeMerged

/-- The algorithm stored into the record after the possible downgrade. -/
def registerAlgorithm (inp : RegisterInput) : Algorithm :=
  if registerWarned inp then Algorithm.undefined else inp.createViewAlgorithm

/-- The `updatable_view` flag as `mysql_register_view` computes it, given
the algorithm after the downgrade: the initial
`can_be_merged && algorithm != VIEW_ALGORITHM_TMPTABLE`, then the loop
over the main select's tables, then the reuse-in-subquery refinement. -/
def computeUpdatable (inp : RegisterInput) (algorithm : Algorithm) : Bool :=
  let u := inp.canBeMerged && decide (algorithm ≠ Algorithm.tmptable)
  let u := u && !(inp.mainTables.any tblBlocksUpdatable)
  if u && !inp.hasNextSelect && decide (inp.mainTables.length = 1) &&
      inp.mainTableUsedInSubquery then
    false
  else u

/-- Tail of `mysql_register_view` after the old-`.frm` probe: fill the
record fields, downgrade an explicit MERGE that cannot be merged (with
warning), compute `updatable_view`, run the check-option gate, persist.
`rev0` is the value of `view->revision` entering this part (0 for a fresh
create, the old record's revision otherwise).

The revision bump on the successful write is not in src/sql/sql_view.cc
(it lives in the codec, parse_file.cc, via FILE_OPTIONS_REV).  Modelled
from the spec: the persisted `revision` is a revision-counter that starts
at 1 and is incremented exactly once per successful rewrite, so the
written record carries `rev0 + 1`. -/
def registerFill (inp : RegisterInput) (rev0 : Nat) : RegisterResult :=
  let warned := registerWarned inp
  let algorithm := registerAlgorithm inp
  let updatable := computeUpdatable inp algorithm
  if decide (inp.createViewCheck ≠ ViewCheck.check_none) && !updatable then
    ⟨.error .nonupdCheck, warned, rev0, []⟩
  else if inp.writeFails then
    ⟨.error .writeError, warned, rev0, []⟩
  else
    let r : ViewRecord := ⟨algorithm, inp.createViewCheck, updatable, rev0 + 1⟩
    ⟨.ok (some r), warned, rev0 + 1, [r]⟩

/-- Model of `mysql_register_view` (sql_view.cc).  The old-`.frm` block:
an existing file under VIEW_CREATE_NEW is ER_TABLE_EXISTS_ERROR; a file
that does not parse as a VIEW record is ER_WRONG_OBJECT; a failed read of
the old revision returns 0 without writing when no error was reported (the
`thd->net.report_error ? -1 : 0` quirk); a missing file under VIEW_ALTER
is ER_NO_SUCH_TABLE.  Then `registerFill` finishes the job. -/
def mysql_register_view (inp : RegisterInput) : RegisterResult :=
  match inp.oldFrm with
  | some f =>
    if inp.mode = CreateMode.createNew then
      ⟨.error .tableExists, false, 0, []⟩
    else if f.prepareFails then
      ⟨.error .prepareError, false, 0, []⟩
    else if !f.parserOk || !f.typeIsView then
      ⟨.error .wrongObject, false, 0, []⟩
    else if f.parseRevisionFails then
      ⟨if inp.netReportError then .error .revisionParseError else .ok none,
        false, 0, []⟩
    else
      registerFill inp f.revision
  | none =>
    if inp.mode = CreateMode.alterView then
      ⟨.error .noSuchTable, false, 0, []⟩
    else
      registerFill inp 0

/-! ## mysql_create_view (the CREATE/ALTER pipeline around the register step) -/

/-- One entry of the opened global table list (`lex->query_tables` walked
via `next_global`), as read by the checks of `mysql_create_view` after
`open_and_lock_tables`. -/
structure OpenedTable where
  isView : Bool
  viewDb : String
  viewName : String
  isTmpTable : Bool
  schemaTable : Bool
  aliasName : String
deriving DecidableEq, Repr

/-- Errors of `mysql_create_view`, named after the error raised at each
exit.  `selfReference` is the ER_NO_SUCH_TABLE raised by the
same-view-used-in-query check (the self-reference rejection). -/
inductive CreateErr where
  | viewSelectClause
  | viewSelectDerived
  | viewSelectVariable
  | openFailed
  | viewSelectTmptable (aliasName : String)
  | selfReference (db nm : String)
  | prepareFailed
  | wrongList
  | dupFieldname (nm : String)
  | globalReadLock
  | registerFailed (e : RegErr)
deriving DecidableEq, Repr

/-- The loop over the opened global table list in `mysql_create_view`
(lines 188-215): per table, first the temporary-table check, then the
self-reference check against the (db, name) being defined; the first hit
determines the error. -/
def scanCreateTables (vdb vnm : String) : List OpenedTable → Option CreateErr
  | [] => none
  | t :: ts =>
    if t.isTmpTable && !t.isView && !t.schemaTable then
      some (.viewSelectTmptable t.aliasName)
    else if t.isView && decide (t.viewDb = vdb) && decide (t.viewName = vnm) then
      some (.selfReference t.viewDb t.viewName)
    else
      scanCreateTables vdb vnm ts

/-- The duplicate-output-name test of `mysql_create_view`: each item from
the second onward is compared against every earlier item; the first name
with an earlier equal is reported.  `seen` accumulates the names already
passed. -/
def firstDupName : List String → List String → Option String
  | _, [] => none
  | seen, n :: ns =>
    if seen.any (fun s => s = n) then some n
    else firstDupName (seen ++ [n]) ns

/-- Inputs of `mysql_create_view`: the LEX preconditions, the target
(db, name), the collaborator outcomes (`open_and_lock_tables`,
`unit->prepare`, `wait_if_global_read_lock`), the opened global table
list, the user column list and the select item names, and the inputs of
the register step. -/
structure CreateViewInput where
  hasProcList : Bool
  hasResult : Bool
  hasDerivedTables : Bool
  variablesUsed : Bool
  paramCount : Nat
  viewDb : String
  viewName : String
  openFails : Bool
  globalTables : List OpenedTable
  prepareFails : Bool
  viewList : List String
  itemNames : List String
  globalReadLockFails : Bool
  regInput : RegisterInput
deriving Repr

/-- Result of `mysql_create_view`: the outcome, whether
`query_cache_invalidate3` was called for the view's name, whether the
merge-downgrade warning was pushed, and the records written. -/
structure CreateViewResult where
  outcome : Except CreateErr (Option ViewRecord)
  invalidated : Bool
  warned : Bool
  writes : List ViewRecord
deriving Repr

/-- Model of `mysql_create_view` (sql_view.cc): the clause gates
(INTO/PROCEDURE, derived tables, variables, parameters), the open of the
underlying tables, the per-table temporary/self-reference scan, the
prepare of the defining select, the user column list count check and the
positional renaming, the duplicate-name test, then the register step
under LOCK_open; after it, `query_cache_invalidate3` is called exactly
when `view->revision != 1` (lines 309-310), whether or not the register
step succeeded. -/
def mysql_create_view (inp : CreateViewInput) : CreateViewResult :=
  if inp.hasProcList || inp.hasResult then
    ⟨.error .viewSelectClause, false, false, []⟩
  else if inp.hasDerivedTables || inp.variablesUsed || decide (0 < inp.paramCount) then
    ⟨.error (if inp.hasDerivedTables then .viewSelectDerived
             else .viewSelectVariable), false, false, []⟩
  else if inp.openFails then
    ⟨.error .openFailed, false, false, []⟩
  else
    match scanCreateTables inp.viewDb inp.viewName inp.globalTables with
    | some e => ⟨.error e, false, false, []⟩
    | none =>
      if inp.prepareFails then
        ⟨.error .prepareFailed, false, false, []⟩
      else if !inp.viewList.isEmpty &&
          decide (inp.viewList.length ≠ inp.itemNames.length) then
        ⟨.error .wrongList, false, false, []⟩
      else
        let names := if inp.viewList.isEmpty then inp.itemNames else inp.viewList
        match firstDupName [] names with
        | some n => ⟨.error (.dupFieldname n), false, false, []⟩
        | none =>
          if inp.globalReadLockFails then
            ⟨.error .globalReadLock, false, false, []⟩
          else
            let r := mysql_register_view inp.regInput
            let inval := decide (r.revisionField ≠ 1)
            match r.outcome with
            | .error e => ⟨.error (.registerFailed e), inval, r.warned, r.writes⟩
            | .ok v => ⟨.ok v, inval, r.warned, r.writes⟩

/-! ## mysql_make_view (resolution of a view use-site) -/

/-- The LEX produced by re-parsing the view's stored query text
(`yyparse`), restricted to what `mysql_make_view` reads: the table
references of the defining query (ids in the global chain), the
merge-eligibility of the select, and the WHERE clause (an opaque
expression id).  The model keeps one list for the view's tables; the
source distinguishes the local and global chains, which coincide for the
merge-relevant single-select case. -/
structure ViewLex where
  viewTables : List Nat
  canBeMerged : Bool
  whereClause : Option Nat
deriving DecidableEq, Repr

/-- The TABLE_LIST node being resolved, restricted to the fields
`mysql_make_view` reads and writes.  `view = some lex` is the non-null
`table->view` of an already (or newly) resolved node; `nextGlobal` is the
rest of the outer global table list after this node. -/
structure TableRefNode where
  view : Option ViewLex
  algorithm : Algorithm
  updatableView : Bool
  withCheck : ViewCheck
  effectiveAlgorithm : Option Algorithm
  updatable : Bool
  effectiveWithCheck : Option ViewCheck
  nextGlobal : List Nat
  ancestor : List Nat
  multitableView : Bool
  whereClause : Option Nat
deriving DecidableEq, Repr

/-- Inputs of `mysql_make_view`: the node, the outcome of the codec read
of the `.frm` parameters, the outcome of the SQL-parser collaborator on
the stored query text, the EXPLAIN/SHOW-CREATE privilege gates, the
prelocking-placeholder flag, and the call-site merge permission
`(master_unit != &old_lex->unit || can_use_merged) && !can_not_use_merged`. -/
structure MakeViewInput where
  node : TableRefNode
  frmParseFails : Bool
  parseResult : Except Unit ViewLex
  explainCheckFails : Bool
  prelockingPlaceholder : Bool
  outerAllowsMerge : Bool
deriving Repr

/-- Result of `mysql_make_view`: success flag (the 0/1 return inverted),
the node after the call, and whether the SQL parser collaborator
(`yyparse`) was invoked. -/
structure MakeViewResult where
  ok : Bool
  node : TableRefNode
  parserInvoked : Bool
deriving DecidableEq, Repr

/-- Model of `mysql_make_view` (sql_view.cc).  An already-resolved node
(`table->view` non-null, the repeated-PS/SP-execution case) returns 0 at
once without touching the node or the parser.  Otherwise: read the `.frm`
parameters, re-parse the stored query, run the EXPLAIN/SHOW-CREATE
privilege gates, splice the view's tables into the global list just after
the node, stop early for prelocking placeholders, then decide MERGE
(algorithm not TMPTABLE, select mergeable, call site allows it) or
TEMPTABLE; the error paths reset `table->view` to null. -/
def mysql_make_view (inp : MakeViewInput) : MakeViewResult :=
  match inp.node.view with
  | some _ => ⟨true, inp.node, false⟩
  | none =>
    if inp.frmParseFails then
      ⟨false, { inp.node with view := none }, false⟩
    else
      match inp.parseResult with
      | .error _ => ⟨false, { inp.node with view := none }, true⟩
      | .ok lex =>
        if inp.explainCheckFails then
          ⟨false, { inp.node with view := none }, true⟩
        else
          let node := { inp.node with
            view := some lex,
            nextGlobal :=
              if lex.viewTables.isEmpty then inp.node.nextGlobal
              else lex.viewTables ++ inp.node.nextGlobal }
          if inp.prelockingPlaceholder then
            ⟨true, node, true⟩
          else if decide (node.algorithm ≠ Algorithm.tmptable) &&
              lex.canBeMerged && inp.outerAllowsMerge then
            ⟨true, { node with
              effectiveAlgorithm := some Algorithm.merge,
              updatable := node.updatableView,
              effectiveWithCheck := some node.withCheck,
              ancestor := lex.viewTables,
              multitableView := decide (1 < lex.viewTables.length),
              whereClause := lex.whereClause }, true⟩
          else
            ⟨true, { node with
              effectiveAlgorithm := some Algorithm.tmptable,
              updatable := false,
              effectiveWithCheck := some ViewCheck.check_none }, true⟩

/-! ## The global-list splice at pointer level

The splice of lines 704-717 is two `next_global` pointer writes.  To show
the resulting order of the chain we model `next_global` as a partial
function over node ids and extract the chain with fuel. -/

/-- Walk the `next_global` pointers from node `i`, collecting at most
`fuel` nodes. -/
def chainFrom (nx : Nat → Option Nat) : Nat → Nat → List Nat
  | 0, _ => []
  | fuel + 1, i =>
    i :: (match nx i with
          | none => []
          | some j => chainFrom nx fuel j)

/-- The two pointer writes of the splice, in source order:
`view_tables_tail->next_global= table->next_global;` then
`table->next_global= view_tables;` (so a write to `tableId` wins). -/
def spliceViewTables (nx : Nat → Option Nat) (tableId vHead vTail : Nat) :
    Nat → Option Nat :=
  fun i =>
    if i = tableId then some vHead
    else if i = vTail then nx tableId
    else nx i

/-- Boolean check that `nx` links the nodes of `l` consecutively and the
last node's `next_global` is null. -/
def chainLinked (nx : Nat → Option Nat) : List Nat → Bool
  | [] => true
  | [a] => nx a = none
  | a :: b :: l => nx a = some b && chainLinked nx (b :: l)

/-- The chain hanging off `table->next_global` before the splice: empty
when the node is last, otherwise the walk from its successor. -/
def oldSuffixWalk (nx : Nat → Option Nat) (fuelS tableId : Nat) : List Nat :=
  match nx tableId with
  | none => []
  | some s => chainFrom nx fuelS s

/-! ## mysql_drop_view -/

/-- One name of a DROP VIEW batch with the state of its path on disk:
whether `access(path, F_OK)` succeeds, what `mysql_frm_type` returns for
it, and whether `my_delete` would fail on it. -/
structure DropEntry where
  db : String
  name : String
  pathExists : Bool
  frmType : FrmTypeResult
  deleteFails : Bool
deriving DecidableEq, Repr

/-- Errors of `mysql_drop_view`. -/
inductive DropErr where
  | wrongObject (db nm : String)
  | badTable (nm : String)
  | deleteFailed
deriving DecidableEq, Repr

/-- The state threaded through the DROP VIEW loop: the C local `type`
(assigned inside the `if` condition, hence carried across iterations when
a path is absent), and the accumulated warnings, deletions and
result-cache invalidations. -/
structure DropState where
  typeFlag : Bool
  warnings : List String
  deleted : List String
  invalidated : List String
deriving DecidableEq, Repr

/-- The `db.name` string built for warnings and messages. -/
def dropName (e : DropEntry) : String := e.db ++ "." ++ e.name

/-- Model of `mysql_drop_view` (sql_view.cc).  Per name:
`access(path) || (type= (mysql_frm_type(path) != FRMTYPE_VIEW))` — note
the short circuit: `type` is only (re)assigned when the path exists; on a
hit, `drop_if_exists` pushes a warning and continues, otherwise the
current `type` selects ER_WRONG_OBJECT versus ER_BAD_TABLE_ERROR and the
batch aborts; on a miss the file is deleted and the query cache
invalidated for the name. -/
def mysql_drop_view (ifExists : Bool) :
    DropState → List DropEntry → Except (DropErr × DropState) DropState
  | st, [] => .ok st
  | st, e :: es =>
    let absent := !e.pathExists
    let typeFlag := if absent then st.typeFlag
                    else decide (e.frmType ≠ FrmTypeResult.frmView)
    if absent || typeFlag then
      let st' := { st with typeFlag := typeFlag }
      if ifExists then
        mysql_drop_view ifExists
          { st' with warnings := st'.warnings ++ [dropName e] } es
      else if st'.typeFlag then
        .error (.wrongObject e.db e.name, st')
      else
        .error (.badTable (dropName e), st')
    else if e.deleteFails then
      .error (.deleteFailed, { st with typeFlag := typeFlag })
    else
      mysql_drop_view ifExists
        { st with typeFlag := typeFlag,
                  deleted := st.deleted ++ [dropName e],
                  invalidated := st.invalidated ++ [dropName e] } es

/-- All gates of `mysql_create_view` before the register step pass: no
INTO/PROCEDURE clause, no derived tables, variables or parameters, the
open succeeds, the per-table scan raises nothing, prepare succeeds, the
user column list (if any) has the right length, there is no duplicate
output name, and the global read lock is obtained. -/
def CreateGatesOpen (cinp : CreateViewInput) : Prop :=
  cinp.hasProcList = false ∧ cinp.hasResult = false ∧
  cinp.hasDerivedTables = false ∧ cinp.variablesUsed = false ∧
  cinp.paramCount = 0 ∧ cinp.openFails = false ∧
  scanCreateTables cinp.viewDb cinp.viewName cinp.globalTables = none ∧
  cinp.prepareFails = false ∧
  (cinp.viewList.isEmpty = true ∨
    cinp.viewList.length = cinp.itemNames.length) ∧
  firstDupName []
    (if cinp.viewList.isEmpty then cinp.itemNames else cinp.viewList) = none ∧
  cinp.globalReadLockFails = false

instance (cinp : CreateViewInput) : Decidable (CreateGatesOpen cinp) := by
  unfold CreateGatesOpen; infer_instance

/-! ## Concrete instances used by witnesses and counterexamples -/

/-- A benign base-table entry of a main select (no view, no schema table,
no outer join on its embedding chain). -/
def sampleLocalTbl : LocalTbl := ⟨false, false, false, [false]⟩

/-- Fresh CREATE of a mergeable single-table view, no check option. -/
def regFresh : RegisterInput :=
  { mode := .createNew, oldFrm := none, canBeMerged := true,
    createViewAlgorithm := .undefined, createViewCheck := .check_none,
    mainTables := [sampleLocalTbl], hasNextSelect := false,
    mainTableUsedInSubquery := false, netReportError := false,
    writeFails := false }

/-- Fresh CREATE requesting ALGORITHM=MERGE for a select that cannot be
merged; every other updatability condition holds. -/
def regMergeIneligible : RegisterInput :=
  { regFresh with canBeMerged := false, createViewAlgorithm := .merge }

/-- Fresh CREATE of a non-mergeable view with WITH LOCAL CHECK OPTION. -/
def regNonupd : RegisterInput :=
  { regFresh with canBeMerged := false, createViewCheck := .check_local }

/-- A benign CREATE VIEW db.v pipeline input around `regFresh`. -/
def createFresh : CreateViewInput :=
  { hasProcList := false, hasResult := false, hasDerivedTables := false,
    variablesUsed := false, paramCount := 0, viewDb := "db", viewName := "v",
    openFails := false, globalTables := [], prepareFails := false,
    viewList := [], itemNames := ["a"], globalReadLockFails := false,
    regInput := regFresh }

/-- CREATE VIEW db.v AS SELECT * FROM v: the opened global list contains
the already-existing view db.v itself. -/
def createSelfRef : CreateViewInput :=
  { createFresh with globalTables := [⟨true, "db", "v", false, false, "v"⟩] }

/-- A LIMIT-qualified mutation through a view exposing columns 0 and 1 of
a three-column table whose only unique not-null key is on column 2, with
the permissive flag off. -/
def ckStrict : CheckKeyInput :=
  { isViewNode := true, isInsert := false, selectLimit := 1,
    keys := [⟨true, false, [2]⟩], tableFields := [0, 1, 2],
    fieldTranslation := [some 0, some 1], updatableViewsWithLimit := false }

/-- An unresolved view use-site node (fresh TABLE_LIST placeholder). -/
def freshNode : TableRefNode :=
  { view := none, algorithm := .undefined, updatableView := false,
    withCheck := .check_none, effectiveAlgorithm := none, updatable := false,
    effectiveWithCheck := none, nextGlobal := [9], ancestor := [],
    multitableView := false, whereClause := none }

/-- Resolution of a stored view whose record says `updatable_view = 0`
(for instance one registered from a non-mergeable select), at a call site
that allows merging and with a mergeable reparse. -/
def makeMergeNotUpd : MakeViewInput :=
  { node := freshNode, frmParseFails := false,
    parseResult := .ok ⟨[4], true, none⟩, explainCheckFails := false,
    prelockingPlaceholder := false, outerAllowsMerge := true }

/-- Resolution whose reparse is not mergeable: the TEMPTABLE path. -/
def makeTmp : MakeViewInput :=
  { makeMergeNotUpd with parseResult := .ok ⟨[4], false, none⟩ }

/-- A node already resolved on a previous execution. -/
def resolvedNode : TableRefNode :=
  { freshNode with view := some ⟨[4], true, none⟩,
                   effectiveAlgorithm := some .merge }

/-- Re-resolution input for `resolvedNode`; the parser outcome is an error
precisely because idempotent re-resolution must never consult it. -/
def makeResolved : MakeViewInput :=
  { makeMergeNotUpd with node := resolvedNode, parseResult := .error () }

/-- A concrete `next_global` graph: outer chain 0 → 1, detached view chain
2 → 3. -/
def nxW : Nat → Option Nat :=
  fun i => if i = 0 then some 1 else if i = 2 then some 3 else none

/-- DROP VIEW target that exists on disk but is a table, not a view. -/
def dropTableEntry : DropEntry := ⟨"db", "t", true, .frmTable, false⟩

/-! ## Theorems -/

/-- C10.  The cheap type probe classifies a readable record file whose
length is shorter than the fixed 10-byte header as VIEW rather than ERROR
or TABLE: for every file that opens and reads successfully with fewer than
10 bytes, `mysql_frm_type` returns FRMTYPE_VIEW (the
`length < (int) sizeof(header)` branch). -/
theorem claim_C10 (content : List Char) (h : content.length < 10) :
    mysql_frm_type (Except.ok content) = FrmTypeResult.frmView := by
  have hlt : (content.take 10).length < 10 := by
    rw [List.length_take]
    exact lt_of_le_of_lt (Nat.min_le_right 10 _) h
  show (if (content.take 10).length < 10 then FrmTypeResult.frmView
        else if content.take 10 = "TYPE=VIEW\n".toList then FrmTypeResult.frmView
        else FrmTypeResult.frmTable) = FrmTypeResult.frmView
  rw [if_pos hlt]

/-- Witness for C10 at the 4-byte content "TYPE". -/
theorem claim_C10_witness :
    mysql_frm_type (Except.ok "TYPE".toList) = FrmTypeResult.frmView :=
  claim_C10 "TYPE".toList (by decide)

/-- C3.  Resolution is idempotent: a table-reference node that already
carries a resolved view sub-tree (`table->view` non-null) makes
`mysql_make_view` return success immediately, with the node unchanged and
without invoking the parser collaborator. -/
theorem claim_C3 (inp : MakeViewInput) (l : ViewLex)
    (h : inp.node.view = some l) :
    mysql_make_view inp = ⟨true, inp.node, false⟩ := by
  simp [mysql_make_view, h]

/-- Witness for C3: re-resolving an already-merged node, with the parser
collaborator set to fail precisely because it must not be consulted. -/
theorem claim_C3_witness :
    mysql_make_view makeResolved = ⟨true, resolvedNode, false⟩ :=
  claim_C3 makeResolved ⟨[4], true, none⟩ rfl

/-- C7, counterexample to the claim as stated.  The claim says a present
record whose type is not VIEW makes the operation fail with
WrongObjectType; but when `if_exists` is set the source checks
`drop_if_exists` before the type and skips the name with a warning, so
`DROP VIEW IF EXISTS db.t` on a table succeeds. -/
theorem claim_C7_counterexample :
    mysql_drop_view true ⟨false, [], [], []⟩ [dropTableEntry]
      = Except.ok ⟨true, ["db.t"], [], []⟩ := rfl

/-- C7, amended: for every name in a DROP VIEW batch, if the record is
absent or is present but not a view, the name is skipped with a warning
when `if_exists` is set; without `if_exists`, an absent record fails
NoSuchView (ER_BAD_TABLE_ERROR) and a present non-view record fails
WrongObjectType (ER_WRONG_OBJECT); otherwise the record is deleted and
cached results for the name are invalidated.  The `typeFlag = false`
hypothesis of the absent-error case is the value the carried C local
`type` always has when an iteration is reached without `if_exists`: it
starts 0 and every completed delete iteration resets it to 0. -/
theorem claim_C7 :
    (∀ (st : DropState) (e : DropEntry) (es : List DropEntry),
      e.pathExists = false →
      mysql_drop_view true st (e :: es) =
        mysql_drop_view true
          { st with warnings := st.warnings ++ [dropName e] } es) ∧
    (∀ (st : DropState) (e : DropEntry) (es : List DropEntry),
      e.pathExists = true → e.frmType ≠ FrmTypeResult.frmView →
      mysql_drop_view true st (e :: es) =
        mysql_drop_view true
          { st with typeFlag := true,
                    warnings := st.warnings ++ [dropName e] } es) ∧
    (∀ (st : DropState) (e : DropEntry) (es : List DropEntry),
      st.typeFlag = false → e.pathExists = false →
      mysql_drop_view false st (e :: es) =
        Except.error (DropErr.badTable (dropName e), st)) ∧
    (∀ (st : DropState) (e : DropEntry) (es : List DropEntry),
      e.pathExists = true → e.frmType ≠ FrmTypeResult.frmView →
      mysql_drop_view false st (e :: es) =
        Except.error (DropErr.wrongObject e.db e.name,
          { st with typeFlag := true })) ∧
    (∀ (ifx : Bool) (st : DropState) (e : DropEntry) (es : List DropEntry),
      e.pathExists = true → e.frmType = FrmTypeResult.frmView →
      e.deleteFails = false →
      mysql_drop_view ifx st (e :: es) =
        mysql_drop_view ifx
          { st with typeFlag := false,
                    deleted := st.deleted ++ [dropName e],
                    invalidated := st.invalidated ++ [dropName e] } es) := by
  refine ⟨?_, ?_, ?_, ?_, ?_⟩
  · intro st e es hp
    simp [mysql_drop_view, hp]
  · intro st e es hp ht
    have hd : decide (e.frmType ≠ FrmTypeResult.frmView) = true :=
      decide_eq_true ht
    simp [mysql_drop_view, hp, hd]
  · intro st e es htf hp
    simp [mysql_drop_view, hp, htf]
    rw [← htf]
  · intro st e es hp ht
    have hd : decide (e.frmType ≠ FrmTypeResult.frmView) = true :=
      decide_eq_true ht
    simp [mysql_drop_view, hp, hd]
  · intro ifx st e es hp hv hdel
    simp [mysql_drop_view, hp, hv, hdel]

/-- Witness for C7: without `if_exists`, dropping a name that exists as a
table fails with ER_WRONG_OBJECT. -/
theorem claim_C7_witness :
    mysql_drop_view false ⟨false, [], [], []⟩ [dropTableEntry]
      = Except.error (DropErr.wrongObject "db" "t", ⟨true, [], [], []⟩) :=
  claim_C7.2.2.2.1 ⟨false, [], [], []⟩ dropTableEntry [] rfl (by decide)

/-- Reduction of `mysql_register_view` to `registerFill` on a fresh
create (no old record, mode ≠ ALTER). -/
theorem register_eq_fill_none (inp : RegisterInput) (hn : inp.oldFrm = none)
    (hm : inp.mode ≠ CreateMode.alterView) :
    mysql_register_view inp = registerFill inp 0 := by
  simp [mysql_register_view, hn, hm]

/-- Reduction of `mysql_register_view` to `registerFill` when the old
record exists, is a view, and its revision probe succeeds. -/
theorem register_eq_fill_some (inp : RegisterInput) (f : OldFrm)
    (hs : inp.oldFrm = some f) (hm : inp.mode ≠ CreateMode.createNew)
    (h1 : f.prepareFails = false) (h2 : f.parserOk = true)
    (h3 : f.typeIsView = true) (h4 : f.parseRevisionFails = false) :
    mysql_register_view inp = registerFill inp f.revision := by
  simp [mysql_register_view, hs, hm, h1, h2, h3, h4]

/-- Shape of a record successfully persisted by `registerFill`. -/
theorem registerFill_ok (inp : RegisterInput) (rev0 : Nat) (r : ViewRecord)
    (h : (registerFill inp rev0).outcome = Except.ok (some r)) :
    r = ⟨registerAlgorithm inp, inp.createViewCheck,
         computeUpdatable inp (registerAlgorithm inp), rev0 + 1⟩ ∧
    (registerFill inp rev0).revisionField = rev0 + 1 := by
  by_cases hck : inp.createViewCheck = ViewCheck.check_none <;>
    by_cases hupd : computeUpdatable inp (registerAlgorithm inp) = true <;>
      by_cases hw : inp.writeFails = true <;>
        simp_all [registerFill]

/-- Shape of a record successfully persisted by `mysql_register_view`:
its algorithm, updatable flag, and revision as functions of the input. -/
theorem register_ok_shape (inp : RegisterInput) (r : ViewRecord)
    (h : (mysql_register_view inp).outcome = Except.ok (some r)) :
    r.algorithm = registerAlgorithm inp ∧
    r.updatableView = computeUpdatable inp (registerAlgorithm inp) ∧
    (mysql_register_view inp).revisionField = r.revision ∧
    (inp.oldFrm = none → r.revision = 1) ∧
    (∀ f, inp.oldFrm = some f → r.revision = f.revision + 1) := by
  cases hf : inp.oldFrm with
  | none =>
    by_cases hm : inp.mode = CreateMode.alterView
    · simp [mysql_register_view, hf, hm] at h
    · rw [register_eq_fill_none inp hf hm] at h ⊢
      obtain ⟨hr, hrev⟩ := registerFill_ok inp 0 r h
      subst hr
      refine ⟨rfl, rfl, hrev, fun _ => rfl, ?_⟩
      intro g hg
      simp at hg
  | some f =>
    by_cases hm : inp.mode = CreateMode.createNew
    · simp [mysql_register_view, hf, hm] at h
    · by_cases h1 : f.prepareFails = true
      · simp [mysql_register_view, hf, hm, h1] at h
      · by_cases h2 : f.parserOk = true
        · by_cases h3 : f.typeIsView = true
          · by_cases h4 : f.parseRevisionFails = true
            · by_cases h5 : inp.netReportError = true <;>
                simp [mysql_register_view, hf, hm, h1, h2, h3, h4, h5] at h
            · rw [register_eq_fill_some inp f hf hm
                (Bool.not_eq_true _ ▸ h1) h2 h3 (Bool.not_eq_true _ ▸ h4)]
                at h ⊢
              obtain ⟨hr, hrev⟩ := registerFill_ok inp f.revision r h
              subst hr
              refine ⟨rfl, rfl, hrev, ?_, ?_⟩
              · intro hc; simp at hc
              · intro g hg
                injection hg with hfg
                rw [hfg]
          · simp [mysql_register_view, hf, hm, h1, h2, h3] at h
        · simp [mysql_register_view, hf, hm, h1, h2] at h

/-- C1.  Updatability soundness.  (a) every record persisted by a
successful CREATE/ALTER with `updatable_view = 1` has an algorithm other
than TMPTABLE; (b) a fresh node that `mysql_make_view` resolves to
`effective_algorithm = TMPTABLE` always comes out with `updatable = 0`;
(c) the reverse implication does not hold: resolving a stored
`updatable_view = 0` record at a merge-friendly call site yields
`effective_algorithm = MERGE` with `updatable = 0`. -/
theorem claim_C1 :
    (∀ (inp : RegisterInput) (r : ViewRecord),
      (mysql_register_view inp).outcome = Except.ok (some r) →
      r.updatableView = true → r.algorithm ≠ Algorithm.tmptable) ∧
    (∀ inp : MakeViewInput, inp.node.view = none →
      inp.node.effectiveAlgorithm = none →
      (mysql_make_view inp).node.effectiveAlgorithm = some Algorithm.tmptable →
      (mysql_make_view inp).node.updatable = false) ∧
    ((mysql_make_view makeMergeNotUpd).node.effectiveAlgorithm
        = some Algorithm.merge ∧
      (mysql_make_view makeMergeNotUpd).node.updatable = false) := by
  refine ⟨?_, ?_, by constructor <;> rfl⟩
  · intro inp r hok hupd
    obtain ⟨halg, hupdeq, -, -, -⟩ := register_ok_shape inp r hok
    rw [halg]
    intro hc
    rw [hupdeq, hc] at hupd
    simp [computeUpdatable] at hupd
  · intro inp hview heff hres
    by_cases h1 : inp.frmParseFails = true
    · simp [mysql_make_view, hview, h1, heff] at hres
    · cases hp : inp.parseResult with
      | error e =>
        simp [mysql_make_view, hview, h1, hp, heff] at hres
      | ok lex =>
        by_cases h2 : inp.explainCheckFails = true
        · simp [mysql_make_view, hview, h1, hp, h2, heff] at hres
        · by_cases h3 : inp.prelockingPlaceholder = true
          · simp [mysql_make_view, hview, h1, hp, h2, h3, heff] at hres
          · by_cases h4 : (inp.node.algorithm ≠ Algorithm.tmptable ∧
                lex.canBeMerged = true) ∧ inp.outerAllowsMerge = true
            · simp [mysql_make_view, hview, h1, hp, h2, h3, h4] at hres
            · simp [mysql_make_view, hview, h1, hp, h2, h3, h4]

/-- Witness for C1, part (b): resolving a fresh node whose reparse is not
mergeable takes the TEMPTABLE path and clears `updatable`. -/
theorem claim_C1_witness :
    (mysql_make_view makeTmp).node.updatable = false :=
  claim_C1.2.1 makeTmp rfl rfl rfl

/-- C4.  A CREATE/ALTER whose computed `updatable_view` is 0 and whose
requested check option is not NONE fails with ER_VIEW_NONUPD_CHECK before
`sql_create_definition_file` is reached, so nothing is persisted.  The
`hfrm` hypothesis states that the old-`.frm` probe itself raises no
earlier error. -/
theorem claim_C4 (inp : RegisterInput)
    (hcheck : inp.createViewCheck ≠ ViewCheck.check_none)
    (hupd : computeUpdatable inp (registerAlgorithm inp) = false)
    (hfrm : (inp.oldFrm = none ∧ inp.mode ≠ CreateMode.alterView) ∨
      (∃ f, inp.oldFrm = some f ∧ inp.mode ≠ CreateMode.createNew ∧
        f.prepareFails = false ∧ f.parserOk = true ∧ f.typeIsView = true ∧
        f.parseRevisionFails = false)) :
    (mysql_register_view inp).outcome = Except.error RegErr.nonupdCheck ∧
    (mysql_register_view inp).writes = [] := by
  have hfill : ∀ rev0, (registerFill inp rev0).outcome =
      Except.error RegErr.nonupdCheck ∧ (registerFill inp rev0).writes = [] := by
    intro rev0
    simp [registerFill, hcheck, hupd]
  rcases hfrm with ⟨hn, hm⟩ | ⟨f, hs, hm, h1, h2, h3, h4⟩
  · rw [register_eq_fill_none inp hn hm]
    exact hfill 0
  · rw [register_eq_fill_some inp f hs hm h1 h2 h3 h4]
    exact hfill f.revision

/-- Witness for C4: fresh CREATE of a non-mergeable view with WITH LOCAL
CHECK OPTION fails with ER_VIEW_NONUPD_CHECK and writes nothing. -/
theorem claim_C4_witness :
    (mysql_register_view regNonupd).outcome = Except.error RegErr.nonupdCheck ∧
    (mysql_register_view regNonupd).writes = [] :=
  claim_C4 regNonupd (by decide) (by decide) (Or.inl ⟨rfl, by decide⟩)

/-- C9, counterexample to the claim as stated.  Requested MERGE on a
non-mergeable select, with every other updatability condition holding
(single benign base table, no outer join, no subquery reuse): the
definition is created with a warning and algorithm downgraded to
UNDEFINED, but the stored `updatable_view` is 0, not 1 — because
`updatable_view = can_be_merged && ...` and `can_be_merged` is exactly
what failed.  This refutes "the resulting view remains classified
updatable when the other updatability conditions hold". -/
theorem claim_C9_counterexample :
    mysql_register_view regMergeIneligible =
      ⟨Except.ok (some ⟨Algorithm.undefined, ViewCheck.check_none, false, 1⟩),
        true, 1,
        [⟨Algorithm.undefined, ViewCheck.check_none, false, 1⟩]⟩ := rfl

/-- C9, amended: when the requested algorithm is explicitly MERGE but the
defining query is not merge-eligible, the definition is still created
successfully (check option NONE, write succeeds): the warning is pushed
and the stored algorithm is downgraded to UNDEFINED (not TEMPTABLE) — but
the stored `updatable_view` flag is 0, since updatability requires
merge-eligibility itself. -/
theorem claim_C9 (inp : RegisterInput)
    (halg : inp.createViewAlgorithm = Algorithm.merge)
    (hmerge : inp.canBeMerged = false)
    (hcheck : inp.createViewCheck = ViewCheck.check_none)
    (hw : inp.writeFails = false)
    (hfrm : (inp.oldFrm = none ∧ inp.mode ≠ CreateMode.alterView) ∨
      (∃ f, inp.oldFrm = some f ∧ inp.mode ≠ CreateMode.createNew ∧
        f.prepareFails = false ∧ f.parserOk = true ∧ f.typeIsView = true ∧
        f.parseRevisionFails = false)) :
    (mysql_register_view inp).warned = true ∧
    ∃ rv, (mysql_register_view inp).outcome =
      Except.ok (some ⟨Algorithm.undefined, ViewCheck.check_none, false, rv⟩) := by
  have hwarn : registerWarned inp = true := by
    simp [registerWarned, halg, hmerge]
  have halgu : registerAlgorithm inp = Algorithm.undefined := by
    simp [registerAlgorithm, hwarn]
  have hupd : computeUpdatable inp Algorithm.undefined = false := by
    simp [computeUpdatable, hmerge]
  have hfill : ∀ rev0, (registerFill inp rev0).warned = true ∧
      (registerFill inp rev0).outcome = Except.ok
        (some ⟨Algorithm.undefined, ViewCheck.check_none, false, rev0 + 1⟩) := by
    intro rev0
    simp [registerFill, hcheck, hupd, hw, hwarn, halgu]
  rcases hfrm with ⟨hn, hm⟩ | ⟨f, hs, hm, h1, h2, h3, h4⟩
  · rw [register_eq_fill_none inp hn hm]
    exact ⟨(hfill 0).1, 0 + 1, (hfill 0).2⟩
  · rw [register_eq_fill_some inp f hs hm h1 h2 h3 h4]
    exact ⟨(hfill f.revision).1, f.revision + 1, (hfill f.revision).2⟩

/-- Witness for the amended C9 at the concrete ineligible-MERGE input. -/
theorem claim_C9_witness :
    (mysql_register_view regMergeIneligible).warned = true ∧
    ∃ rv, (mysql_register_view regMergeIneligible).outcome =
      Except.ok (some ⟨Algorithm.undefined, ViewCheck.check_none, false, rv⟩) :=
  claim_C9 regMergeIneligible rfl rfl rfl rfl (Or.inl ⟨rfl, by decide⟩)

/-- With every pre-register gate open, `mysql_create_view` is the register
step followed by the publish step: errors are wrapped, and
`query_cache_invalidate3` is called exactly when `view->revision != 1`. -/
theorem create_gates_eq (cinp : CreateViewInput) (hg : CreateGatesOpen cinp) :
    mysql_create_view cinp =
      ⟨(match (mysql_register_view cinp.regInput).outcome with
        | .error e => Except.error (CreateErr.registerFailed e)
        | .ok v => Except.ok v),
       decide ((mysql_register_view cinp.regInput).revisionField ≠ 1),
       (mysql_register_view cinp.regInput).warned,
       (mysql_register_view cinp.regInput).writes⟩ := by
  obtain ⟨g1, g2, g3, g4, g5, g6, g7, g8, g9, g10, g11⟩ := hg
  by_cases hNil : cinp.viewList = []
  · have g10' : firstDupName [] cinp.itemNames = none := by
      simpa [hNil] using g10
    cases hro : (mysql_register_view cinp.regInput).outcome <;>
      simp [mysql_create_view, g1, g2, g3, g4, g5, g6, g7, g8, hNil, g10',
        g11, hro]
  · have hlen : cinp.viewList.length = cinp.itemNames.length := by
      rcases g9 with g9 | g9
      · cases hvl : cinp.viewList with
        | nil => exact absurd hvl hNil
        | cons a l => rw [hvl] at g9; simp at g9
      · exact g9
    have g10' : firstDupName [] cinp.viewList = none := by
      simpa [hNil] using g10
    cases hro : (mysql_register_view cinp.regInput).outcome <;>
      simp [mysql_create_view, g1, g2, g3, g4, g5, g6, g7, g8, hNil, hlen,
        g10', g11, hro]

/-- C8.  After a successful create/alter that persisted a record, the
query-cache invalidation for the view's name is performed if and only if
the resulting revision is not 1: never for a first-ever creation
(no old record, revision 1), always for a replacement of an existing
record (old revision at least 1, new revision at least 2). -/
theorem claim_C8 :
    (∀ (cinp : CreateViewInput) (r : ViewRecord), CreateGatesOpen cinp →
      (mysql_register_view cinp.regInput).outcome = Except.ok (some r) →
      (mysql_create_view cinp).outcome = Except.ok (some r) ∧
      ((mysql_create_view cinp).invalidated = true ↔ r.revision ≠ 1)) ∧
    (∀ (cinp : CreateViewInput) (r : ViewRecord), CreateGatesOpen cinp →
      (mysql_register_view cinp.regInput).outcome = Except.ok (some r) →
      cinp.regInput.oldFrm = none →
      (mysql_create_view cinp).invalidated = false) ∧
    (∀ (cinp : CreateViewInput) (r : ViewRecord) (f : OldFrm),
      CreateGatesOpen cinp →
      (mysql_register_view cinp.regInput).outcome = Except.ok (some r) →
      cinp.regInput.oldFrm = some f → 1 ≤ f.revision →
      (mysql_create_view cinp).invalidated = true) := by
  refine ⟨?_, ?_, ?_⟩
  · intro cinp r hg hreg
    obtain ⟨-, -, hrev, -, -⟩ := register_ok_shape cinp.regInput r hreg
    rw [create_gates_eq cinp hg]
    refine ⟨by rw [hreg], ?_⟩
    rw [hrev]
    simp
  · intro cinp r hg hreg hnone
    obtain ⟨-, -, hrev, hfresh, -⟩ := register_ok_shape cinp.regInput r hreg
    rw [create_gates_eq cinp hg]
    show decide _ = false
    rw [hrev, hfresh hnone]
    simp
  · intro cinp r f hg hreg hsome hge
    obtain ⟨-, -, hrev, -, hold⟩ := register_ok_shape cinp.regInput r hreg
    rw [create_gates_eq cinp hg]
    show decide _ = true
    rw [hrev, hold f hsome]
    simp
    omega

/-- Witness for C8, second conjunct: a first-ever creation does not call
the result-cache invalidation. -/
theorem claim_C8_witness :
    (mysql_create_view createFresh).invalidated = false :=
  claim_C8.2.1 createFresh ⟨Algorithm.undefined, ViewCheck.check_none, true, 1⟩
    (by decide) rfl rfl

/-- The key-scan loop of `check_key_in_view` succeeds exactly when some
unique all-not-null key is fully covered by exposed direct columns. -/
theorem coversKey_eq_true (inp : CheckKeyInput) :
    (inp.keys.any (fun k =>
      k.hasNosame && !k.hasNullPart &&
      k.keyParts.all (fun kp =>
        inp.fieldTranslation.any (fun t => t = some kp)))) = true ↔
    CoversUniqueKey inp := by
  simp [CoversUniqueKey, List.any_eq_true, List.all_eq_true, and_assoc]

/-- The field-scan loop of `check_key_in_view` succeeds exactly when every
table field is exposed as a direct column. -/
theorem coversAll_eq_true (inp : CheckKeyInput) :
    (inp.tableFields.all (fun f =>
      inp.fieldTranslation.any (fun t => t = some f))) = true ↔
    CoversAllFields inp := by
  simp [CoversAllFields, List.all_eq_true, List.any_eq_true]

/-- C2.  For a view node under a LIMIT-qualified non-INSERT mutation, the
bounded-mutation key check reports safe iff the exposed columns cover a
full unique all-not-null key or every column of the underlying table —
with the exception that, when neither holds, the warn-and-allow versus
reject outcome is selected by the `updatable_views_with_limit`
configuration flag and not hardcoded: coverage means safe under either
flag value, no coverage means safe-with-warning iff the flag is set. -/
theorem claim_C2 (inp : CheckKeyInput)
    (hview : inp.isViewNode = true) (hins : inp.isInsert = false)
    (hlim : inp.selectLimit ≠ 0) :
    ((check_key_in_view inp).reject = false ↔
      (CoversUniqueKey inp ∨ CoversAllFields inp ∨
        inp.updatableViewsWithLimit = true)) ∧
    (inp.updatableViewsWithLimit = false →
      ((check_key_in_view inp).reject = false ↔
        (CoversUniqueKey inp ∨ CoversAllFields inp))) ∧
    (¬(CoversUniqueKey inp ∨ CoversAllFields inp) →
      (((check_key_in_view inp).reject = false ↔
          inp.updatableViewsWithLimit = true) ∧
       ((check_key_in_view inp).warned = true ↔
          inp.updatableViewsWithLimit = true))) := by
  have hck : check_key_in_view inp =
      if CoversUniqueKey inp then ⟨false, false⟩
      else if CoversAllFields inp then ⟨false, false⟩
      else if inp.updatableViewsWithLimit then ⟨false, true⟩
      else ⟨true, false⟩ := by
    unfold check_key_in_view
    rw [if_neg (by simp [hview, hins, hlim])]
    by_cases h1 : CoversUniqueKey inp
    · rw [if_pos ((coversKey_eq_true inp).mpr h1), if_pos h1]
    · rw [if_neg (fun hq => h1 ((coversKey_eq_true inp).mp hq)), if_neg h1]
      by_cases h2 : CoversAllFields inp
      · rw [if_pos ((coversAll_eq_true inp).mpr h2), if_pos h2]
      · rw [if_neg (fun hq => h2 ((coversAll_eq_true inp).mp hq)), if_neg h2]
  by_cases h1 : CoversUniqueKey inp <;> by_cases h2 : CoversAllFields inp <;>
    by_cases h3 : inp.updatableViewsWithLimit = true <;>
      simp [hck, h1, h2, h3]

/-- Witness for C2: a strict-mode input with no coverage, instantiating
the strict-mode equivalence. -/
theorem claim_C2_witness :
    (check_key_in_view ckStrict).reject = false ↔
      (CoversUniqueKey ckStrict ∨ CoversAllFields ckStrict) :=
  (claim_C2 ckStrict rfl rfl (by decide)).2.1 rfl

/-- The per-table scan of `mysql_create_view` reports the self-reference
error when no table is an offending temporary table and some opened table
is a view with the qualified name being defined. -/
theorem scanCreateTables_self (vdb vnm : String) (ts : List OpenedTable)
    (hnotmp : ∀ t ∈ ts, ¬(t.isTmpTable = true ∧ t.isView = false ∧
      t.schemaTable = false))
    (hself : ∃ t ∈ ts, t.isView = true ∧ t.viewDb = vdb ∧ t.viewName = vnm) :
    scanCreateTables vdb vnm ts = some (CreateErr.selfReference vdb vnm) := by
  induction ts with
  | nil => simp at hself
  | cons t ts ih =>
    have h1 : (t.isTmpTable && !t.isView && !t.schemaTable) = false := by
      have ht := hnotmp t (List.mem_cons_self t ts)
      cases hv : t.isView <;> cases htm : t.isTmpTable <;>
        cases hsc : t.schemaTable <;> simp_all
    by_cases h2 : (t.isView && decide (t.viewDb = vdb) &&
        decide (t.viewName = vnm)) = true
    · have h2' := h2
      simp only [Bool.and_eq_true, decide_eq_true_eq] at h2'
      obtain ⟨⟨hv, hdb⟩, hnm⟩ := h2'
      simp [scanCreateTables, h1, hv, hdb, hnm]
    · rcases hself with ⟨t', ht', hp⟩
      rcases List.mem_cons.mp ht' with heq | hmem
      · subst heq
        obtain ⟨hv, hdb, hnm⟩ := hp
        simp [hv, hdb, hnm] at h2
      · have := ih (fun u hu => hnotmp u (List.mem_cons_of_mem t hu))
          ⟨t', hmem, hp⟩
        simp [scanCreateTables, h1, h2, this]

/-- C6.  A CREATE or ALTER whose opened table list contains, directly or
through another view's spliced-in tables, a view with the qualified
(schema, name) being defined fails with the self-reference error (the
ER_NO_SUCH_TABLE raised at lines 199-207); `hnotmp` rules out the
temporary-table error that would fire first on an earlier table. -/
theorem claim_C6 (cinp : CreateViewInput)
    (h1 : cinp.hasProcList = false) (h2 : cinp.hasResult = false)
    (h3 : cinp.hasDerivedTables = false) (h4 : cinp.variablesUsed = false)
    (h5 : cinp.paramCount = 0) (h6 : cinp.openFails = false)
    (hnotmp : ∀ t ∈ cinp.globalTables, ¬(t.isTmpTable = true ∧
      t.isView = false ∧ t.schemaTable = false))
    (hself : ∃ t ∈ cinp.globalTables, t.isView = true ∧
      t.viewDb = cinp.viewDb ∧ t.viewName = cinp.viewName) :
    (mysql_create_view cinp).outcome =
      Except.error (CreateErr.selfReference cinp.viewDb cinp.viewName) := by
  have hscan := scanCreateTables_self cinp.viewDb cinp.viewName
    cinp.globalTables hnotmp hself
  simp [mysql_create_view, h1, h2, h3, h4, h5, h6, hscan]

/-- Witness for C6: CREATE VIEW db.v AS SELECT * FROM v, where v resolves
to the already-existing view db.v in the opened table list. -/
theorem claim_C6_witness :
    (mysql_create_view createSelfRef).outcome =
      Except.error (CreateErr.selfReference "db" "v") :=
  claim_C6 createSelfRef rfl rfl rfl rfl rfl rfl (by decide) (by decide)

/-- A fuel-bounded pointer walk only depends on the pointers at the nodes
it visits. -/
theorem chainFrom_congr (nx nxp : Nat → Option Nat) (fuel : Nat) :
    ∀ i, (∀ j ∈ chainFrom nx fuel i, nxp j = nx j) →
    chainFrom nxp fuel i = chainFrom nx fuel i := by
  induction fuel with
  | zero => intro i h; rfl
  | succ fuel ih =>
    intro i h
    have hi : nxp i = nx i := h i (by rw [chainFrom]; exact List.mem_cons_self i _)
    rw [chainFrom, chainFrom, hi]
    cases hnx : nx i with
    | none => rfl
    | some j =>
      have hsub : ∀ m ∈ chainFrom nx fuel j, nxp m = nx m := by
        intro m hm
        refine h m ?_
        rw [chainFrom, hnx]
        exact List.mem_cons_of_mem i hm
      show i :: chainFrom nxp fuel j = i :: chainFrom nx fuel j
      rw [ih j hsub]

/-- Walking the spliced graph from the view chain's head visits the whole
view chain in order and then continues into the node's old suffix. -/
theorem chainFrom_splice_walk (nx : Nat → Option Nat)
    (tableId vTail fuelS : Nat) :
    ∀ (rest : List Nat) (a : Nat),
    chainLinked nx (a :: rest) = true →
    (a :: rest).getLast? = some vTail →
    tableId ∉ (a :: rest) →
    (a :: rest).Nodup →
    (∀ j ∈ oldSuffixWalk nx fuelS tableId, j ≠ tableId ∧ j ≠ vTail) →
    ∀ vHead, chainFrom (spliceViewTables nx tableId vHead vTail)
        (fuelS + rest.length + 1) a
      = (a :: rest) ++ oldSuffixWalk nx fuelS tableId := by
  intro rest
  induction rest with
  | nil =>
    intro a hlink hlast hnid hnodup hsfx vHead
    have ha : a = vTail := by simpa using hlast
    subst ha
    have hvt : ¬(a = tableId) := by
      intro hh
      exact hnid (by simp [hh])
    rw [chainFrom]
    have h1 : spliceViewTables nx tableId vHead a a = nx tableId := by
      simp [spliceViewTables, hvt]
    rw [h1]
    unfold oldSuffixWalk at hsfx ⊢
    cases hnt : nx tableId with
    | none => rfl
    | some s =>
      rw [hnt] at hsfx
      have hagree : ∀ m ∈ chainFrom nx fuelS s,
          spliceViewTables nx tableId vHead a m = nx m := by
        intro m hm
        obtain ⟨hm1, hm2⟩ := hsfx m hm
        simp [spliceViewTables, hm1, hm2]
      have hc := chainFrom_congr nx
        (spliceViewTables nx tableId vHead a) fuelS s hagree
      show a :: chainFrom (spliceViewTables nx tableId vHead a) (fuelS + 0) s
          = [a] ++ chainFrom nx fuelS s
      rw [Nat.add_zero, hc]
      rfl
  | cons b rest' ih =>
    intro a hlink hlast hnid hnodup hsfx vHead
    have hlink' := hlink
    simp only [chainLinked, Bool.and_eq_true, decide_eq_true_eq] at hlink'
    obtain ⟨hab, hlink2⟩ := hlink'
    have hlast2 : (b :: rest').getLast? = some vTail := by
      rwa [List.getLast?_cons_cons] at hlast
    have hnid2 : tableId ∉ (b :: rest') :=
      fun hm => hnid (List.mem_cons_of_mem a hm)
    have hnida : ¬(a = tableId) := by
      intro hh
      exact hnid (by simp [hh])
    have hnodup2 : (b :: rest').Nodup := (List.nodup_cons.mp hnodup).2
    have hav : ¬(a = vTail) := by
      intro hh
      exact (List.nodup_cons.mp hnodup).1
        (hh ▸ List.mem_of_getLast?_eq_some hlast2)
    have h1 : spliceViewTables nx tableId vHead vTail a = some b := by
      simp [spliceViewTables, hnida, hav, hab]
    rw [chainFrom, h1]
    have hrec := ih b hlink2 hlast2 hnid2 hnodup2 hsfx vHead
    exact congrArg (a :: ·) hrec

/-- C5.  The splice puts the view's tables immediately after the view's
own node, not at the tail.  First conjunct: whenever `mysql_make_view`
resolves a fresh node with algorithm MERGE, the node's `next_global`
suffix becomes the view's tables followed by the old suffix, so the
underlying tables are contiguous right after the node.  Second conjunct,
at pointer level: the two `next_global` writes of lines 704-717 turn the
walk from the node into node, whole view chain in order, then the old
suffix — provided the view chain is a well-formed chain disjoint from the
node and its suffix.  (The splice runs before the merge/temptable
decision, so the conjunct holds for TEMPTABLE resolutions as well.) -/
theorem claim_C5 :
    (∀ (inp : MakeViewInput) (lex : ViewLex), inp.node.view = none →
      inp.node.effectiveAlgorithm = none →
      inp.parseResult = Except.ok lex →
      (mysql_make_view inp).node.effectiveAlgorithm = some Algorithm.merge →
      (mysql_make_view inp).node.nextGlobal =
        lex.viewTables ++ inp.node.nextGlobal) ∧
    (∀ (nx : Nat → Option Nat) (vts : List Nat)
        (tableId vHead vTail fuelS : Nat),
      chainLinked nx vts = true → vts.head? = some vHead →
      vts.getLast? = some vTail → tableId ∉ vts → vts.Nodup →
      (∀ j ∈ oldSuffixWalk nx fuelS tableId, j ≠ tableId ∧ j ≠ vTail) →
      chainFrom (spliceViewTables nx tableId vHead vTail)
          (fuelS + vts.length + 1) tableId
        = tableId :: vts ++ oldSuffixWalk nx fuelS tableId) := by
  constructor
  · intro inp lex hview heff hp hres
    by_cases h1 : inp.frmParseFails = true
    · simp [mysql_make_view, hview, h1, heff] at hres
    · by_cases h2 : inp.explainCheckFails = true
      · simp [mysql_make_view, hview, h1, hp, h2, heff] at hres
      · by_cases h3 : inp.prelockingPlaceholder = true
        · simp [mysql_make_view, hview, h1, hp, h2, h3, heff] at hres
        · by_cases h4 : (inp.node.algorithm ≠ Algorithm.tmptable ∧
              lex.canBeMerged = true) ∧ inp.outerAllowsMerge = true
          · by_cases h5 : lex.viewTables = []
            · simp [mysql_make_view, hview, h1, hp, h2, h3, h4, h5]
            · simp [mysql_make_view, hview, h1, hp, h2, h3, h4, h5]
          · simp [mysql_make_view, hview, h1, hp, h2, h3, h4] at hres
  · intro nx vts tableId vHead vTail fuelS hlink hhead hlast hnid hnodup hsfx
    cases vts with
    | nil => simp at hhead
    | cons a rest =>
      have ha : a = vHead := by simpa using hhead
      subst ha
      have h1 : spliceViewTables nx tableId a vTail tableId = some a := by
        simp [spliceViewTables]
      rw [chainFrom, h1]
      exact congrArg (tableId :: ·)
        (chainFrom_splice_walk nx tableId vTail fuelS rest a
          hlink hlast hnid hnodup hsfx a)

/-- Witness for C5, pointer level: outer chain 0 → 1, view chain 2 → 3;
after the splice the walk from node 0 is [0, 2, 3, 1] — the view tables
sit between the node and its old successor, not at the tail. -/
theorem claim_C5_witness :
    chainFrom (spliceViewTables nxW 0 2 3) 4 0 = [0, 2, 3, 1] :=
  claim_C5.2 nxW [2, 3] 0 2 3 1 (by decide) rfl (by decide) (by decide)
    (by decide) (by decide)
